import Mathlib

/-!
Verification of the fraud-analysis reporting pipeline in `fraud_eda.py`
(repository `credit-card-fraud-analysis`).

The script is a linear pandas program: it loads `creditcard.csv` into a
dataframe `df` (CELL 2), prints a class-balance table (CELL 5), segments
transactions into six amount bands and aggregates fraud statistics per band
(CELL 7), groups by hour of day (CELL 8), and prints an executive summary
(CELL 10).  We embed the dataframe as a list of transaction records and each
cell's aggregation as a function on that list.  Monetary amounts, timestamps
and rates are embedded as exact rationals (`ℚ`); the script's float values
are idealised that way.  A pandas operation that raises an uncaught exception
(KeyError, ValueError) is embedded as `Option`/`Except` returning
`none`/`.error`: since the script has no exception handler, any raise aborts
the whole run at that line.
-/

namespace FraudEda

/-- Floor of a rational, computed from the normalised numerator/denominator.
`ℤ` division is Euclidean division, which for a positive denominator is the
floor of the exact quotient, so this agrees with `⌊q⌋` (proved below); unlike
`Int.floor` it reduces in the kernel, so concrete tables can be evaluated. -/
def ratFloor (q : ℚ) : ℤ := q.num / (q.den : ℤ)

/-- Truncation of a rational toward zero.  This is what numpy's
`.astype(int)` does to a float value (C-style cast), used at line 182 of
`fraud_eda.py` for `(df['Time'] / 3600).astype(int)`. -/
def ratTrunc (q : ℚ) : ℤ := q.num.tdiv (q.den : ℤ)

/-- Round a rational to the nearest integer, ties to the nearest even
integer.  Python's built-in `round` (used throughout the script via
`.round(n)` / `round(x, n)`) rounds half to even. -/
def roundHalfEven (q : ℚ) : ℤ :=
  let f : ℤ := ratFloor q
  let r : ℚ := q - (f : ℚ)
  if r < 1/2 then f
  else if (1 : ℚ)/2 < r then f + 1
  else if f % 2 = 0 then f else f + 1

/-- Round a rational to `d` decimal places (Python `round(x, d)` /
pandas `.round(d)`, idealised over exact rationals). -/
def roundTo (d : ℕ) (q : ℚ) : ℚ := (roundHalfEven (q * 10 ^ d) : ℚ) / 10 ^ d

/-- One row of `creditcard.csv` as loaded into `df`: the `Time` column
(seconds from an arbitrary origin), the anonymised `V1..V28` feature columns,
the `Amount` column, and the binary `Class` label (`true` = fraudulent = 1,
`false` = legitimate = 0; the data-model invariant is that `Class ∈ {0,1}`,
which the Bool embedding makes intrinsic). -/
structure Txn where
  time : ℚ
  features : List ℚ
  amount : ℚ
  isFraud : Bool
  deriving DecidableEq

/-- The six risk bands of CELL 7, in the order of their string labels
`'1. Micro (< $10)'` … `'6. Very High (>= $5K)'`.  pandas `groupby` sorts
group keys ascending, and the numeric prefixes make the lexicographic string
order coincide with this constructor order (ascending amount). -/
inductive Band
  | micro
  | low
  | medium
  | high
  | premium
  | veryHigh
  deriving DecidableEq

/-- The six band labels in the ascending (string-sort) order in which pandas
`groupby('amount_band')` emits them. -/
def bands : List Band := [.micro, .low, .medium, .high, .premium, .veryHigh]

/-- `assign_risk_band` (fraud_eda.py lines 136-148): the if/elif chain
mapping an amount to its band. -/
def assign_risk_band (amount : ℚ) : Band :=
  if amount < 10 then .micro
  else if amount < 100 then .low
  else if amount < 500 then .medium
  else if amount < 1000 then .high
  else if amount < 5000 then .premium
  else .veryHigh

/-- Line 182, value before the final `% 24`:
`(df['Time'] / 3600).astype(int)` — float division then C-style truncation
toward zero. -/
def hour_quot (t : ℚ) : ℤ := ratTrunc (t / 3600)

/-- Line 182: `df['hour_of_day'] = (df['Time'] / 3600).astype(int) % 24`.
numpy's `%` with a positive divisor returns a value in `[0, 24)` (sign of
the divisor), which is exactly `Int.emod`, Lean's `%` on `ℤ`. -/
def hour_of_day_int (t : ℚ) : ℤ := hour_quot t % 24

/-- The hour as a natural number; `hour_of_day_int` is always in `[0, 24)`
(proved below), so `toNat` loses nothing. -/
def hour_of_day (t : ℚ) : ℕ := (hour_of_day_int t).toNat

/-! ## CELL 5 — class distribution (lines 59-65) -/

/-- Whether a class label occurs in the table (i.e. whether
`df['Class'].value_counts()` has an entry with that key). -/
def classPresent (tbl : List Txn) (c : Bool) : Bool :=
  tbl.any (fun r => r.isFraud == c)

/-- The count `df['Class'].value_counts()[c]`: a label-based Series lookup.
pandas raises `KeyError` when the label `c` does not occur, which we embed
as `none`. -/
def value_counts_get (tbl : List Txn) (c : Bool) : Option ℕ :=
  if classPresent tbl c then some (tbl.countP (fun r => r.isFraud == c)) else none

/-- The class-balance report of lines 61-65. -/
structure FraudSummary where
  legitimateCount : ℕ
  fraudulentCount : ℕ
  legitimatePct : ℚ
  fraudulentPct : ℚ
  deriving DecidableEq

/-- `fraud_summary` (lines 59-65): counts from `value_counts()[0]` and
`value_counts()[1]`, percentages from `value_counts(normalize=True) * 100`
rounded to 4 decimals.  `none` models the uncaught `KeyError` raised when a
label value is absent from the table. -/
def fraud_summary (tbl : List Txn) : Option FraudSummary := do
  let c0 ← value_counts_get tbl false
  let c1 ← value_counts_get tbl true
  some ⟨c0, c1, roundTo 4 ((c0 : ℚ) / (tbl.length : ℚ) * 100),
        roundTo 4 ((c1 : ℚ) / (tbl.length : ℚ) * 100)⟩

/-! ## CELL 7 — band summary (lines 150-158) -/

/-- Number of rows of `tbl` assigned to band `b`
(the per-group `('Class', 'count')` aggregate of line 153). -/
def bandCount (tbl : List Txn) (b : Band) : ℕ :=
  tbl.countP (fun r => decide (assign_risk_band r.amount = b))

/-- Number of fraudulent rows of `tbl` in band `b` (the `('Class', 'sum')`
aggregate of line 154; summing the 0/1 labels counts the 1-labels). -/
def bandFraudCount (tbl : List Txn) (b : Band) : ℕ :=
  tbl.countP (fun r => r.isFraud && decide (assign_risk_band r.amount = b))

/-- Sum of amounts of the rows of `tbl` in band `b` (line 155). -/
def bandAmount (tbl : List Txn) (b : Band) : ℚ :=
  ((tbl.filter (fun r => decide (assign_risk_band r.amount = b))).map Txn.amount).sum

/-- Sum of amounts of the fraudulent rows of `tbl` in band `b`
(`df[df['Class']==1].groupby('amount_band')['Amount'].sum()` of line 158,
for one group key). -/
def bandFraudAmount (tbl : List Txn) (b : Band) : ℚ :=
  ((tbl.filter (fun r => r.isFraud && decide (assign_risk_band r.amount = b))).map
    Txn.amount).sum

/-- The group keys of `df.groupby('amount_band')` at line 152: the bands that
contain at least one transaction, in ascending label order. -/
def presentBands (tbl : List Txn) : List Band :=
  bands.filter (fun b => tbl.any (fun r => decide (assign_risk_band r.amount = b)))

/-- The group keys of `df[df['Class']==1].groupby('amount_band')` at
line 158: the bands that contain at least one fraudulent transaction. -/
def fraudBands (tbl : List Txn) : List Band :=
  bands.filter (fun b =>
    tbl.any (fun r => r.isFraud && decide (assign_risk_band r.amount = b)))

/-- One row of `band_summary` after line 157. -/
structure BandRow where
  amount_band : Band
  total_transactions : ℕ
  fraud_count : ℕ
  total_amount : ℚ
  fraud_rate_pct : ℚ
  deriving DecidableEq

/-- `band_summary` as of lines 152-157 (before the `fraud_exposure` column is
attached): one row per band present in the table, with count, fraud count,
amount sum, and `fraud_rate_pct = (fraud_count / total_transactions * 100)`
rounded to 2 decimals. -/
def band_summary_core (tbl : List Txn) : List BandRow :=
  (presentBands tbl).map (fun b =>
    ⟨b, bandCount tbl b, bandFraudCount tbl b, bandAmount tbl b,
      roundTo 2 ((bandFraudCount tbl b : ℚ) / (bandCount tbl b : ℚ) * 100)⟩)

/-- One row of `band_summary` after line 158. -/
structure BandRowE where
  amount_band : Band
  total_transactions : ℕ
  fraud_count : ℕ
  total_amount : ℚ
  fraud_rate_pct : ℚ
  fraud_exposure : ℚ
  deriving DecidableEq

/-- `band_summary` after line 158:
`band_summary['fraud_exposure'] = df[df['Class']==1].groupby('amount_band')['Amount'].sum().values`.
`.values` strips the index, so pandas assigns the fraud-band sums to the
summary rows *positionally*; when the number of bands that contain fraud is
not the number of bands present, the assignment raises
`ValueError: Length of values does not match length of index`, embedded as
`none`. -/
def band_summary (tbl : List Txn) : Option (List BandRowE) :=
  let core := band_summary_core tbl
  let vals := (fraudBands tbl).map (fun b => bandFraudAmount tbl b)
  if vals.length = core.length then
    some ((core.zip vals).map (fun p =>
      ⟨p.1.amount_band, p.1.total_transactions, p.1.fraud_count,
        p.1.total_amount, p.1.fraud_rate_pct, p.2⟩))
  else none

/-! ## CELL 8 — hourly summary (lines 182-186) -/

/-- The distinct `hour_of_day` values occurring in the table, ascending: the
row keys of `df.groupby(['hour_of_day', 'Class']).size().unstack(...)`.
Every hour value lies in `[0, 24)` (proved below), so filtering
`List.range 24` enumerates exactly the groupby keys in sorted order. -/
def hoursPresent (tbl : List Txn) : List ℕ :=
  (List.range 24).filter (fun h => tbl.any (fun r => decide (hour_of_day r.time = h)))

/-- Number of rows with hour `h` and class `c` (one cell of the unstacked
size table, line 184; `fill_value=0` makes missing cells 0, which is what
`countP` returns when nothing matches). -/
def hourClassCount (tbl : List Txn) (h : ℕ) (c : Bool) : ℕ :=
  tbl.countP (fun r => decide (hour_of_day r.time = h) && (r.isFraud == c))

/-- One row of `hourly` after line 186. -/
structure HourRow where
  hour : ℕ
  legitimate : ℕ
  fraudulent : ℕ
  fraud_rate : ℚ
  deriving DecidableEq

/-- `hourly` (lines 184-186).  The `unstack` at line 184 produces one column
per class value occurring in the table; line 185 renames the columns to
`['hour', 'legitimate', 'fraudulent']`, which raises
`ValueError: Length mismatch` (embedded as `none`) unless both class values
occur.  Line 186 adds `fraud_rate = fraudulent / (legitimate + fraudulent)
* 100` rounded to 4 decimals. -/
def hourly (tbl : List Txn) : Option (List HourRow) :=
  if classPresent tbl false && classPresent tbl true then
    some ((hoursPresent tbl).map (fun h =>
      let l := hourClassCount tbl h false
      let f := hourClassCount tbl h true
      ⟨h, l, f, roundTo 4 ((f : ℚ) / ((l : ℚ) + (f : ℚ)) * 100)⟩))
  else none

/-! ## CELL 10 — executive summary (lines 236-244) -/

/-- pandas `Series.idxmax` followed by `.loc`: the first element (in index
order) whose key attains the maximum, `none` on an empty series (pandas
raises on an empty series). -/
def idxmaxBy {α : Type} (key : α → ℚ) : List α → Option α
  | [] => none
  | x :: xs =>
    match idxmaxBy key xs with
    | none => some x
    | some y => if key y ≤ key x then some x else some y

/-- Line 243: `peak_hour = hourly.loc[hourly['fraud_rate'].idxmax(), 'hour']`.
`none` when `hourly` itself was never built (the script already aborted). -/
def peak_hour (tbl : List Txn) : Option ℕ :=
  match hourly tbl with
  | none => none
  | some l => (idxmaxBy (fun e => e.fraud_rate) l).map (fun e => e.hour)

/-- Line 244:
`highest_band = band_summary.loc[band_summary['fraud_rate_pct'].idxmax(), 'amount_band']`. -/
def highest_band (tbl : List Txn) : Option Band :=
  match band_summary tbl with
  | none => none
  | some l => (idxmaxBy (fun e => e.fraud_rate_pct) l).map (fun e => e.amount_band)

/-! ## CELL 7/8 — the two derived columns (lines 150 and 182) -/

/-- A row of `df` after the two column assignments of lines 150 and 182:
the loaded columns plus `amount_band` and `hour_of_day`. -/
structure TxnAug where
  time : ℚ
  features : List ℚ
  amount : ℚ
  isFraud : Bool
  amount_band : Band
  hour_of_day : ℕ
  deriving DecidableEq

/-- Lines 150 and 182, the only two writes to `df` in the whole script:
`df['amount_band'] = df['Amount'].apply(assign_risk_band)` and
`df['hour_of_day'] = (df['Time'] / 3600).astype(int) % 24`.  Both attach a
new column computed row-wise; no loaded column is written anywhere. -/
def addDerivedColumns (tbl : List Txn) : List TxnAug :=
  tbl.map (fun r =>
    ⟨r.time, r.features, r.amount, r.isFraud,
      assign_risk_band r.amount, hour_of_day r.time⟩)

/-- Projection of an augmented row back onto the loaded columns. -/
def dropDerivedColumns (r : TxnAug) : Txn :=
  ⟨r.time, r.features, r.amount, r.isFraud⟩

/-! ## CELL 2 — loading, and the run as a whole -/

/-- The state of the input file `creditcard.csv` that line 24 reads. -/
inductive InputFile
  | absent
  | malformed
  | wellFormed (rows : List Txn)

/-- The uncaught exceptions the script can die of. -/
inductive ScriptError
  | fileNotFound
  | parseError
  | keyError
  | valueLengthMismatch
  | columnRenameMismatch
  | emptySeriesIdxmax
  deriving DecidableEq

/-- Line 24, `df = pd.read_csv("creditcard.csv")`: pandas raises
`FileNotFoundError` for a missing file and `ParserError` for an unparsable
one; the script wraps the call in no `try`, so either exception is fatal. -/
def read_csv : InputFile → Except ScriptError (List Txn)
  | .absent => .error .fileNotFound
  | .malformed => .error .parseError
  | .wellFormed rows => .ok rows

/-- Lift an embedded pandas result to the script level: `none` was an
uncaught exception `e`, which aborts the linear script at that point. -/
def orRaise {α : Type} (e : ScriptError) : Option α → Except ScriptError α
  | some a => .ok a
  | none => .error e

/-- Everything the script has computed when it reaches the end of CELL 10. -/
structure Report where
  classBalance : FraudSummary
  bandTable : List BandRowE
  hourlyTable : List HourRow
  peakHour : ℕ
  highestBand : Band
  deriving DecidableEq

/-- The whole script, in its source order: load (line 24), class balance
(CELL 5), band summary (CELL 7), hourly summary (CELL 8), executive summary
(CELL 10).  The first uncaught exception aborts the run; every later cell is
unreached. -/
def runScript (file : InputFile) : Except ScriptError Report := do
  let tbl ← read_csv file
  let cb ← orRaise .keyError (fraud_summary tbl)
  let bt ← orRaise .valueLengthMismatch (band_summary tbl)
  let ht ← orRaise .columnRenameMismatch (hourly tbl)
  let ph ← orRaise .emptySeriesIdxmax (peak_hour tbl)
  let hb ← orRaise .emptySeriesIdxmax (highest_band tbl)
  pure ⟨cb, bt, ht, ph, hb⟩

end FraudEda

deriving instance DecidableEq for Except

/-! ## Theorems -/

section Verification

attribute [local semireducible] Rat.ofScientific Rat.mul Rat.inv Rat.add Rat.sub

namespace FraudEda

/-- `ratFloor` is the floor of the exact rational value. -/
theorem ratFloor_eq (q : ℚ) : ratFloor q = ⌊q⌋ := Rat.floor_def.symm

/-- On non-negative rationals, truncation toward zero is the floor. -/
theorem ratTrunc_eq_floor (q : ℚ) (h : 0 ≤ q) : ratTrunc q = ⌊q⌋ := by
  rw [ratTrunc, Int.tdiv_eq_ediv (Rat.num_nonneg.mpr h) (by positivity), ← Rat.floor_def]

/-- The hour column is always in `[0, 24)`. -/
theorem hour_of_day_int_bounds (t : ℚ) :
    0 ≤ hour_of_day_int t ∧ hour_of_day_int t < 24 :=
  ⟨Int.emod_nonneg _ (by norm_num), Int.emod_lt_of_pos _ (by norm_num)⟩

/-- Restated bound for the `ℕ`-valued hour column. -/
theorem hour_of_day_lt (t : ℚ) : hour_of_day t < 24 := by
  have h := hour_of_day_int_bounds t
  unfold hour_of_day
  omega

/-- C5: For every transaction, the derived hour-of-day equals the timestamp
offset integer-divided by 3600 then taken modulo 24 (for the non-negative
offsets of the data model, where the code's truncation toward zero is
integer division), this value lies in `[0, 23]` for every timestamp
magnitude, and for offset 90000 seconds the hour is 1. -/
theorem hour_of_day_spec :
    (∀ t : ℚ, 0 ≤ hour_of_day_int t ∧ hour_of_day_int t < 24) ∧
    (∀ t : ℚ, 0 ≤ t → hour_of_day_int t = ⌊t / 3600⌋ % 24) ∧
    hour_of_day_int 90000 = 1 := by
  refine ⟨hour_of_day_int_bounds, fun t ht => ?_, by decide⟩
  unfold hour_of_day_int hour_quot
  rw [ratTrunc_eq_floor _ (by positivity)]

/-- Witness for C5 at the concrete offset 90000. -/
theorem hour_of_day_spec_witness :
    (0 : ℚ) ≤ 90000 ∧ hour_of_day_int 90000 = ⌊(90000 : ℚ) / 3600⌋ % 24 :=
  ⟨by norm_num, hour_of_day_spec.2.1 90000 (by norm_num)⟩

/-- C4: On the non-negative amounts of the data model, `assign_risk_band`
realises exactly the six half-open intervals `[0,10) [10,100) [100,500)
[500,1000) [1000,5000) [5000,∞)`; the characterisations are two-sided, so
the six intervals partition `[0,∞)` with no gap or overlap, and the
boundary examples 9.99, 10.00, 99.99, 100.00 land as the spec says. -/
theorem assign_risk_band_partition :
    (∀ a : ℚ, 0 ≤ a →
      ((assign_risk_band a = .micro ↔ 0 ≤ a ∧ a < 10) ∧
       (assign_risk_band a = .low ↔ 10 ≤ a ∧ a < 100) ∧
       (assign_risk_band a = .medium ↔ 100 ≤ a ∧ a < 500) ∧
       (assign_risk_band a = .high ↔ 500 ≤ a ∧ a < 1000) ∧
       (assign_risk_band a = .premium ↔ 1000 ≤ a ∧ a < 5000) ∧
       (assign_risk_band a = .veryHigh ↔ 5000 ≤ a))) ∧
    assign_risk_band 9.99 = .micro ∧ assign_risk_band 10 = .low ∧
    assign_risk_band 99.99 = .low ∧ assign_risk_band 100 = .medium := by
  refine ⟨fun a ha => ?_, by decide, by decide, by decide, by decide⟩
  unfold assign_risk_band
  split_ifs with h1 h2 h3 h4 h5 <;>
    refine ⟨?_, ?_, ?_, ?_, ?_, ?_⟩ <;>
    constructor <;>
    intro hx <;>
    (try obtain ⟨hx1, hx2⟩ := hx) <;>
    first
      | rfl
      | exact Band.noConfusion hx
      | (constructor <;> linarith)
      | linarith

/-- Witness for C4 at the concrete amount 750. -/
theorem assign_risk_band_partition_witness :
    (0 : ℚ) ≤ 750 ∧ (assign_risk_band 750 = .high ↔ (500 : ℚ) ≤ 750 ∧ (750 : ℚ) < 1000) :=
  ⟨by norm_num, ((assign_risk_band_partition.1 750 (by norm_num)).2.2.2.1)⟩

/-- C10: `assign_risk_band` is total on all of `ℚ` (its argument type), and
every amount below 10 — in particular every negative amount — takes the
first branch of the if/elif chain and is assigned the Micro band. -/
theorem assign_risk_band_total_micro :
    ∀ a : ℚ, a < 10 → assign_risk_band a = .micro := by
  intro a h
  unfold assign_risk_band
  rw [if_pos h]

/-- Witness for C10 at the negative amount -5. -/
theorem assign_risk_band_total_micro_witness :
    (-5 : ℚ) < 10 ∧ assign_risk_band (-5) = .micro :=
  ⟨by norm_num, assign_risk_band_total_micro (-5) (by norm_num)⟩

/-- C1 (divergence): on a table with a single legitimate transaction of
amount 5, the Micro band is present (it has a transaction) but holds no
fraudulent transaction, so the grouped fraud sums at line 158 have fewer
entries than `band_summary` has rows and the positional `.values` assignment
raises `ValueError` — instead of reporting a fraud exposure of 0 for the
band, as the spec requires. -/
theorem band_summary_exposure_raises :
    presentBands [⟨0, [], 5, false⟩] = [Band.micro] ∧
    fraudBands [⟨0, [], 5, false⟩] = [] ∧
    band_summary [⟨0, [], 5, false⟩] = none := by decide

/-- C2 (divergence): on a table in which the fraud label 1 is entirely
absent (one legitimate row), `df['Class'].value_counts()[1]` at line 63
raises `KeyError`, so the class-balance summary is never produced — instead
of reporting count 0 and percentage 0 for the absent label, as the spec
requires. -/
theorem fraud_summary_raises :
    classPresent [⟨0, [], 5, false⟩] true = false ∧
    fraud_summary [⟨0, [], 5, false⟩] = none := by decide

/-- C6 (divergence): on a table whose labels are all 0 the script dies of
the `KeyError` of CELL 5 (and CELLs 7/8 would raise `ValueError` in turn),
so `peak_hour` at line 243 is never computed — instead of defaulting to
hour 0, as the spec requires. -/
theorem peak_hour_all_legitimate_raises :
    peak_hour [⟨0, [], 5, false⟩] = none ∧
    highest_band [⟨0, [], 5, false⟩] = none ∧
    runScript (.wellFormed [⟨0, [], 5, false⟩]) = .error .keyError := by decide

/-- C8 (counterexample): when the input file is absent, line 24 raises an
uncaught `FileNotFoundError`: the run ends as that error, so no summarizer
runs and no part of the report is produced.  The "rest of the pipeline" is
exactly what the uncaught exception kills, contradicting the claim's
"while not crashing the rest of the pipeline". -/
theorem runScript_absent_aborts :
    runScript .absent = .error .fileNotFound := rfl

/-- C8 (amended): a load failure — absent or malformed file — aborts the
whole run with that error, before any summarizer runs; nothing of the
report is computed. -/
theorem load_error_aborts_run (f : InputFile) (e : ScriptError)
    (h : read_csv f = .error e) : runScript f = .error e := by
  cases f with
  | absent => injection h with h'; rw [← h']; rfl
  | malformed => injection h with h'; rw [← h']; rfl
  | wellFormed rows => simp [read_csv] at h

/-- Witness for C8 on the malformed input file. -/
theorem load_error_aborts_run_witness :
    read_csv .malformed = .error .parseError ∧
    runScript .malformed = .error .parseError :=
  ⟨rfl, load_error_aborts_run .malformed .parseError rfl⟩

/-- C9: the two derived-column assignments (lines 150 and 182) — the only
writes to `df` in the script — leave every loaded column and the row order
intact: projecting the augmented table back onto the loaded columns gives
back the original table.  All other cells only read `df`; in this embedding
they are functions of the table, so they cannot modify it. -/
theorem addDerivedColumns_preserves_table (tbl : List Txn) :
    (addDerivedColumns tbl).map dropDerivedColumns = tbl := by
  unfold addDerivedColumns dropDerivedColumns
  rw [List.map_map]
  exact List.map_id'' (fun r => rfl) tbl

/-- Sums of natural-valued columns distribute over pointwise addition. -/
theorem sum_map_add {β : Type} (L : List β) (f g : β → ℕ) :
    (L.map (fun b => f b + g b)).sum = (L.map f).sum + (L.map g).sum := by
  induction L with
  | nil => rfl
  | cons a t ih =>
    simp only [List.map_cons, List.sum_cons, ih]
    omega

/-- Dropping list elements on which a column is 0 does not change its sum. -/
theorem sum_map_filter {β : Type} (L : List β) (p : β → Bool) (f : β → ℕ)
    (h : ∀ b ∈ L, p b = false → f b = 0) :
    ((L.filter p).map f).sum = (L.map f).sum := by
  induction L with
  | nil => rfl
  | cons a t ih =>
    have iht := ih (fun b hb => h b (List.mem_cons_of_mem a hb))
    cases hp : p a with
    | true => simp [List.filter_cons, hp, iht]
    | false => simp [List.filter_cons, hp, iht, h a (List.mem_cons_self a t) hp]

/-- Each amount is assigned to exactly one of the six bands, so the
indicator of its band sums to 1 over the band list. -/
theorem band_indicator_sum (x : Band) :
    (bands.map (fun b => if x = b then 1 else 0)).sum = 1 := by
  cases x <;> decide

/-- Unfolding `bandCount` over one more row. -/
theorem bandCount_cons (r : Txn) (t : List Txn) (b : Band) :
    bandCount (r :: t) b =
      bandCount t b + if assign_risk_band r.amount = b then 1 else 0 := by
  unfold bandCount
  rw [List.countP_cons]
  simp

/-- Unfolding `bandFraudCount` over one more row. -/
theorem bandFraudCount_cons (r : Txn) (t : List Txn) (b : Band) :
    bandFraudCount (r :: t) b =
      bandFraudCount t b +
        if r.isFraud = true ∧ assign_risk_band r.amount = b then 1 else 0 := by
  unfold bandFraudCount
  rw [List.countP_cons]
  simp

/-- The per-band transaction counts sum to the row count over all six
bands. -/
theorem sum_bandCount (tbl : List Txn) :
    (bands.map (fun b => bandCount tbl b)).sum = tbl.length := by
  induction tbl with
  | nil => rfl
  | cons r t ih =>
    rw [List.map_congr_left (fun b _ => bandCount_cons r t b),
      sum_map_add bands (fun b => bandCount t b)
        (fun b => if assign_risk_band r.amount = b then 1 else 0),
      ih, band_indicator_sum (assign_risk_band r.amount), List.length_cons]

/-- The per-band fraud counts sum to the total fraud count over all six
bands. -/
theorem sum_bandFraudCount (tbl : List Txn) :
    (bands.map (fun b => bandFraudCount tbl b)).sum =
      tbl.countP (fun r => r.isFraud) := by
  induction tbl with
  | nil => rfl
  | cons r t ih =>
    rw [List.map_congr_left (fun b _ => bandFraudCount_cons r t b),
      sum_map_add bands (fun b => bandFraudCount t b)
        (fun b => if r.isFraud = true ∧ assign_risk_band r.amount = b then 1 else 0),
      ih, List.countP_cons]
    cases hr : r.isFraud with
    | false => simp [hr]
    | true => simp [hr, band_indicator_sum (assign_risk_band r.amount)]

/-- A band with no transaction contributes a zero transaction count. -/
theorem bandCount_eq_zero_of_not_present (tbl : List Txn) (b : Band)
    (h : tbl.any (fun r => decide (assign_risk_band r.amount = b)) = false) :
    bandCount tbl b = 0 := by
  unfold bandCount
  rw [List.countP_eq_zero]
  intro r hr
  exact List.any_eq_false.mp h r hr

/-- A band with no transaction contributes a zero fraud count. -/
theorem bandFraudCount_eq_zero_of_not_present (tbl : List Txn) (b : Band)
    (h : tbl.any (fun r => decide (assign_risk_band r.amount = b)) = false) :
    bandFraudCount tbl b = 0 := by
  unfold bandFraudCount
  rw [List.countP_eq_zero]
  intro r hr
  have hb := List.any_eq_false.mp h r hr
  simp only [Bool.and_eq_true, not_and]
  intro _
  exact hb

/-- C7: summing the `total_transactions` column of `band_summary` over its
rows gives the total number of rows of the table, and summing the
`fraud_count` column gives the total number of fraudulent rows; bands with
no transactions have no row (and would contribute 0). -/
theorem band_summary_totals (tbl : List Txn) :
    ((band_summary_core tbl).map (fun row => row.total_transactions)).sum = tbl.length ∧
    ((band_summary_core tbl).map (fun row => row.fraud_count)).sum =
      (tbl.filter (fun r => r.isFraud)).length := by
  constructor
  · unfold band_summary_core presentBands
    rw [List.map_map]
    show ((bands.filter _).map (fun b => bandCount tbl b)).sum = tbl.length
    rw [sum_map_filter bands _ (fun b => bandCount tbl b)
      (fun b _ hb => bandCount_eq_zero_of_not_present tbl b hb)]
    exact sum_bandCount tbl
  · unfold band_summary_core presentBands
    rw [List.map_map]
    show ((bands.filter _).map (fun b => bandFraudCount tbl b)).sum =
      (tbl.filter (fun r => r.isFraud)).length
    rw [sum_map_filter bands _ (fun b => bandFraudCount tbl b)
      (fun b _ hb => bandFraudCount_eq_zero_of_not_present tbl b hb),
      sum_bandFraudCount tbl, List.countP_eq_length_filter]

/-- Splitting a row count by the binary class label. -/
theorem countP_class_split (tbl : List Txn) (p : Txn → Bool) :
    tbl.countP (fun r => p r && !r.isFraud) +
      tbl.countP (fun r => p r && r.isFraud) = tbl.countP p := by
  induction tbl with
  | nil => rfl
  | cons r t ih =>
    rw [List.countP_cons, List.countP_cons, List.countP_cons]
    cases hp : p r <;> cases hr : r.isFraud <;> simp [hp, hr] <;> omega

/-- The two class cells of an hour row sum to the number of transactions in
that hour. -/
theorem hourClassCount_split (tbl : List Txn) (h : ℕ) :
    hourClassCount tbl h false + hourClassCount tbl h true =
      tbl.countP (fun r => decide (hour_of_day r.time = h)) := by
  unfold hourClassCount
  have hs := countP_class_split tbl (fun r => decide (hour_of_day r.time = h))
  simpa using hs

/-- C3 (counterexample): a table with a legitimate transaction at hour 0 and
a fraudulent one at hour 2 (offset 7200 s).  Both labels occur, so `hourly`
is built without error — but it has exactly two rows, for the two hours that
occur in the data; the other 22 hours (hour 1 among them) have no entry,
contrary to the claim that all 24 hours appear. -/
theorem hourly_omits_empty_hours :
    hourly [⟨0, [], 5, false⟩, ⟨7200, [], 300, true⟩] =
      some [⟨0, 1, 0, 0⟩, ⟨2, 0, 1, 100⟩] ∧
    ((hourly [⟨0, [], 5, false⟩, ⟨7200, [], 300, true⟩]).getD []).length = 2 := by
  decide

/-- C3 (amended): whenever `hourly` is produced (both labels occur in the
table), it has an entry exactly for each hour in `[0, 24)` that has at least
one transaction — hours with zero transactions are omitted, not listed with
rate 0 — and every entry covers at least one transaction (so the rate
denominator is never 0) and carries
`fraud_rate = round₄(fraudulent / (legitimate + fraudulent) × 100)`. -/
theorem hourly_entries (tbl : List Txn) (l : List HourRow)
    (hl : hourly tbl = some l) :
    (∀ h : ℕ, (∃ e ∈ l, e.hour = h) ↔
        (h < 24 ∧ tbl.any (fun r => decide (hour_of_day r.time = h)) = true)) ∧
    (∀ e ∈ l, 0 < e.legitimate + e.fraudulent ∧
        e.fraud_rate = roundTo 4 ((e.fraudulent : ℚ) /
          ((e.legitimate : ℚ) + (e.fraudulent : ℚ)) * 100)) := by
  unfold hourly at hl
  split at hl
  case isFalse => exact absurd hl (by simp)
  case isTrue hcp =>
    injection hl with hl'
    subst hl'
    constructor
    · intro h
      constructor
      · rintro ⟨e, he, rfl⟩
        obtain ⟨h', hh', rfl⟩ := List.mem_map.mp he
        have hm := List.mem_filter.mp hh'
        exact ⟨List.mem_range.mp hm.1, hm.2⟩
      · rintro ⟨hlt, hany⟩
        exact ⟨_, List.mem_map.mpr
          ⟨h, List.mem_filter.mpr ⟨List.mem_range.mpr hlt, hany⟩, rfl⟩, rfl⟩
    · intro e he
      obtain ⟨h', hh', rfl⟩ := List.mem_map.mp he
      have hm := List.mem_filter.mp hh'
      refine ⟨?_, rfl⟩
      have hsplit := hourClassCount_split tbl h'
      have hpos : 0 < tbl.countP (fun r => decide (hour_of_day r.time = h')) := by
        rw [List.countP_pos_iff]
        exact List.any_eq_true.mp hm.2
      show 0 < hourClassCount tbl h' false + hourClassCount tbl h' true
      omega

/-- Witness for C3 (amended) on a two-row table whose transactions all fall
in hour 0. -/
theorem hourly_entries_witness :
    (∀ h : ℕ, (∃ e ∈ ([⟨0, 1, 1, 50⟩] : List HourRow), e.hour = h) ↔
        (h < 24 ∧ ([⟨0, [], 5, false⟩, ⟨0, [], 300, true⟩] : List Txn).any
          (fun r => decide (hour_of_day r.time = h)) = true)) ∧
    (∀ e ∈ ([⟨0, 1, 1, 50⟩] : List HourRow), 0 < e.legitimate + e.fraudulent ∧
        e.fraud_rate = roundTo 4 ((e.fraudulent : ℚ) /
          ((e.legitimate : ℚ) + (e.fraudulent : ℚ)) * 100)) :=
  hourly_entries [⟨0, [], 5, false⟩, ⟨0, [], 300, true⟩] [⟨0, 1, 1, 50⟩]
    (by decide)

end FraudEda

end Verification
